import Mathlib

/-!
Verification of the buoyancy component of the OceanProject plugin
(`BuoyancyComponent.h` / `BuoyancyComponent.cpp`).

The component is embedded shallowly over exact rationals: engine-side
services (the wave-height field `AOceanManager::GetWaveHeightValue`, the
body transform, `GetUnrealWorldVelocityAtPoint`, `FVector::Size` and
`FVector::GetSafeNormal`, gravity) are modelled as an explicit environment
record of functions, and one tick of `UBuoyancyComponent::TickComponent`
becomes a pure function from the component's configuration, the
environment and the rigid-body state to the new body state together with
the list of `AddForceAtLocation` calls issued during the tick.
-/

/-- An `FVector`: three rational components. -/
structure Vec3 where
  x : ℚ
  y : ℚ
  z : ℚ
  deriving DecidableEq, Repr

namespace Vec3

/-- The zero vector (`FVector::ZeroVector`). -/
def zero : Vec3 := ⟨0, 0, 0⟩

/-- Component-wise negation (unary `-` on `FVector`). -/
def neg (v : Vec3) : Vec3 := ⟨-v.x, -v.y, -v.z⟩

/-- Component-wise sum (`FVector + FVector`). -/
def add (a b : Vec3) : Vec3 := ⟨a.x + b.x, a.y + b.y, a.z + b.z⟩

/-- Component-wise difference (`FVector - FVector`). -/
def sub (a b : Vec3) : Vec3 := ⟨a.x - b.x, a.y - b.y, a.z - b.z⟩

/-- Component-wise product (`FVector * FVector`). -/
def cmul (a b : Vec3) : Vec3 := ⟨a.x * b.x, a.y * b.y, a.z * b.z⟩

/-- Scaling by a scalar on the right (`FVector * float`). -/
def smul (v : Vec3) (c : ℚ) : Vec3 := ⟨v.x * c, v.y * c, v.z * c⟩

/-- Dot product. -/
def dot (a b : Vec3) : ℚ := a.x * b.x + a.y * b.y + a.z * b.z

/-- Cross product, used to express the torque contributed by a force
applied at a point away from a reference point. -/
def cross (a b : Vec3) : Vec3 :=
  ⟨a.y * b.z - a.z * b.y, a.z * b.x - a.x * b.z, a.x * b.y - a.y * b.x⟩

theorem ext_iff {a b : Vec3} : a = b ↔ a.x = b.x ∧ a.y = b.y ∧ a.z = b.z := by
  constructor
  · rintro rfl; exact ⟨rfl, rfl, rfl⟩
  · rcases a with ⟨ax, ay, az⟩
    rcases b with ⟨bx, by_, bz⟩
    rintro ⟨h1, h2, h3⟩
    simp_all

end Vec3

/-- `FMath::Clamp(X, Min, Max)`: `X < Min ? Min : (X > Max ? Max : X)`. -/
def clampQ (x lo hi : ℚ) : ℚ := if x < lo then lo else if x > hi then hi else x

/-- `FMath::Sign(A)`: `(A > 0) ? 1 : ((A < 0) ? -1 : 0)`. -/
def FMathSign (a : ℚ) : ℚ := if a > 0 then 1 else if a < 0 then -1 else 0

/-- The configuration and cached runtime state of a `UBuoyancyComponent`.
`OceanManagerBound` models `OceanManager != nullptr`; `SignedRadius`,
`baseLinearDamping` and `baseAngularDamping` are the private cached fields
`_SignedRadius`, `_baseLinearDamping`, `_baseAngularDamping`. -/
structure BuoyancyComponent where
  OceanManagerBound : Bool
  MeshDensity : ℚ
  FluidDensity : ℚ
  FluidLinearDamping : ℚ
  FluidAngularDamping : ℚ
  VelocityDamper : Vec3
  ClampMaxVelocity : Bool
  MaxUnderwaterVelocity : ℚ
  TestPointRadius : ℚ
  TestPoints : List Vec3
  PointDensityOverride : List ℚ
  DrawDebugPoints : Bool
  EnableStayUprightConstraint : Bool
  StayUprightStiffness : ℚ
  StayUprightDamping : ℚ
  SignedRadius : ℚ
  baseLinearDamping : ℚ
  baseAngularDamping : ℚ
  deriving DecidableEq, Repr

/-- The state of the body owned by `UpdatedComponent`/`UpdatedPrimitive`. -/
structure BodyState where
  Position : Vec3
  LinearVelocity : Vec3
  LinearDamping : ℚ
  AngularDamping : ℚ
  Mass : ℚ
  IsSimulating : Bool
  deriving DecidableEq, Repr

/-- The engine-side services the tick consumes, as pure oracles:
`WaveHeight` is `AOceanManager::GetWaveHeightValue`, `Transform` is
`FTransform::TransformPosition` of the component transform captured at the
start of the tick, `WorldVelocityAtPoint` is
`FBodyInstance::GetUnrealWorldVelocityAtPoint`, `BodyInstanceValid` the
`BI != NULL && BI->IsValidBodyInstance()` check, `Size` and `SafeNormal`
the `FVector` norm operations of the engine's math library, and `GravityZ`
the value of `GetGravityZ()`. -/
structure WorldEnv where
  WaveHeight : Vec3 → Vec3
  Transform : Vec3 → Vec3
  WorldVelocityAtPoint : Vec3 → Vec3
  BodyInstanceValid : Bool
  Size : Vec3 → ℚ
  SafeNormal : Vec3 → Vec3
  GravityZ : ℚ

/-- `UBuoyancyComponent::GetVelocityAtPoint`: the world velocity at a
point, or the zero vector when the body instance is missing or invalid. -/
def GetVelocityAtPoint (env : WorldEnv) (point : Vec3) : Vec3 :=
  if env.BodyInstanceValid then env.WorldVelocityAtPoint point else Vec3.zero

/-- The world-space position of test point `i`:
`transform.TransformPosition(TestPoints[pointIndex])`. -/
def WorldPoint (comp : BuoyancyComponent) (env : WorldEnv) (i : ℕ) : Vec3 :=
  env.Transform (comp.TestPoints.getD i Vec3.zero)

/-- The submersion test `waveHeight > worldTestPoint.Z + _SignedRadius`. -/
def PointUnderwater (comp : BuoyancyComponent) (env : WorldEnv) (w : Vec3) : Bool :=
  decide ((env.WaveHeight w).z > w.z + comp.SignedRadius)

/-- `DepthMultiplier`: the clamped submersion fraction
`Clamp((waveHeight - (worldTestPoint.Z + _SignedRadius)) / (TestPointRadius * 2), 0, 1)`. -/
def DepthMultiplier (comp : BuoyancyComponent) (env : WorldEnv) (w : Vec3) : ℚ :=
  clampQ (((env.WaveHeight w).z - (w.z + comp.SignedRadius)) / (comp.TestPointRadius * 2)) 0 1

/-- `PointDensity`: `PointDensityOverride.IsValidIndex(pointIndex) ?
PointDensityOverride[pointIndex] : MeshDensity`. -/
def PointDensity (comp : BuoyancyComponent) (i : ℕ) : ℚ :=
  comp.PointDensityOverride.getD i comp.MeshDensity

/-- `BuoyancyForceZ` for a given point density and world test point:
`GetMass() / PointDensity * FluidDensity * -GetGravityZ() / TotalPoints * DepthMultiplier`. -/
def BuoyancyForceZ (comp : BuoyancyComponent) (env : WorldEnv) (body : BodyState)
    (density : ℚ) (w : Vec3) : ℚ :=
  body.Mass / density * comp.FluidDensity * (-env.GravityZ) /
    (comp.TestPoints.length : ℚ) * DepthMultiplier comp env w

/-- `DampingForce`:
`-GetVelocityAtPoint(UpdatedPrimitive, worldTestPoint) * VelocityDamper * GetMass() * DepthMultiplier`. -/
def DampingForce (comp : BuoyancyComponent) (env : WorldEnv) (body : BodyState)
    (w : Vec3) : Vec3 :=
  (((GetVelocityAtPoint env w).neg.cmul comp.VelocityDamper).smul body.Mass).smul
    (DepthMultiplier comp env w)

/-- The force vector passed to `AddForceAtLocation` for one test point:
`FVector(DampingForce.X, DampingForce.Y, DampingForce.Z + BuoyancyForceZ)`. -/
def PointForce (comp : BuoyancyComponent) (env : WorldEnv) (body : BodyState)
    (density : ℚ) (w : Vec3) : Vec3 :=
  ⟨(DampingForce comp env body w).x, (DampingForce comp env body w).y,
    (DampingForce comp env body w).z + BuoyancyForceZ comp env body density w⟩

/-- One iteration of the point loop: the `AddForceAtLocation` call (force,
world location) issued for index `i`, or `none` when the point is not
underwater. -/
def PointEntry (comp : BuoyancyComponent) (env : WorldEnv) (body : BodyState)
    (i : ℕ) : Option (Vec3 × Vec3) :=
  if PointUnderwater comp env (WorldPoint comp env i) then
    some (PointForce comp env body (PointDensity comp i) (WorldPoint comp env i),
      WorldPoint comp env i)
  else none

/-- All `AddForceAtLocation` calls of one tick, in loop order. -/
def TickForces (comp : BuoyancyComponent) (env : WorldEnv) (body : BodyState) :
    List (Vec3 × Vec3) :=
  (List.range comp.TestPoints.length).filterMap (PointEntry comp env body)

/-- The value of `PointsUnderWater` after the point loop. -/
def TickPointsUnderWater (comp : BuoyancyComponent) (env : WorldEnv) : ℕ :=
  (List.range comp.TestPoints.length).countP
    (fun i => PointUnderwater comp env (WorldPoint comp env i))

/-- The velocity clamp after the loop:
`if (ClampMaxVelocity && PointsUnderWater > 0 && GetPhysicsLinearVelocity().Size() > MaxUnderwaterVelocity)`
then `GetSafeNormal() * MaxUnderwaterVelocity`, else the velocity is left
as it is. -/
def ClampedVelocity (comp : BuoyancyComponent) (env : WorldEnv) (cnt : ℕ)
    (body : BodyState) : Vec3 :=
  if comp.ClampMaxVelocity = true ∧ 0 < cnt ∧
      comp.MaxUnderwaterVelocity < env.Size body.LinearVelocity then
    (env.SafeNormal body.LinearVelocity).smul comp.MaxUnderwaterVelocity
  else body.LinearVelocity

/-- The result of one tick: the component (returned so frame conditions
can be stated), the new body state, the `AddForceAtLocation` calls, and
the submerged-point counter. -/
structure TickResult where
  comp : BuoyancyComponent
  body : BodyState
  AppliedForces : List (Vec3 × Vec3)
  PointsUnderWater : ℕ
  deriving Repr

/-- `UBuoyancyComponent::TickComponent`: early return when no
`OceanManager` is bound; the kinematic snap when the body is not
simulating physics; early return when `TotalPoints < 1`; otherwise the
point loop followed by the velocity clamp and the damping update
`_baseLinearDamping + FluidLinearDamping / TotalPoints * PointsUnderWater`
(and likewise angular). -/
def TickComponent (comp : BuoyancyComponent) (env : WorldEnv) (body : BodyState) :
    TickResult :=
  if comp.OceanManagerBound = false then
    { comp := comp, body := body, AppliedForces := [], PointsUnderWater := 0 }
  else if body.IsSimulating = false then
    { comp := comp
      body := { body with
        Position := ⟨body.Position.x, body.Position.y,
          (env.WaveHeight body.Position).z⟩ }
      AppliedForces := []
      PointsUnderWater := 0 }
  else if (comp.TestPoints.length : ℚ) < 1 then
    { comp := comp, body := body, AppliedForces := [], PointsUnderWater := 0 }
  else
    { comp := comp
      body := { body with
        LinearVelocity :=
          ClampedVelocity comp env (TickPointsUnderWater comp env) body
        LinearDamping := comp.baseLinearDamping +
          comp.FluidLinearDamping / (comp.TestPoints.length : ℚ) *
            (TickPointsUnderWater comp env : ℚ)
        AngularDamping := comp.baseAngularDamping +
          comp.FluidAngularDamping / (comp.TestPoints.length : ℚ) *
            (TickPointsUnderWater comp env : ℚ) }
      AppliedForces := TickForces comp env body
      PointsUnderWater := TickPointsUnderWater comp env }

/-- `UBuoyancyComponent::InitializeComponent`, restricted to the state this
core owns: auto-detect binds an `OceanManager` when the scene has one,
`TestPointRadius` is normalized to its absolute value, `_SignedRadius` is
derived from the gravity sign, and the base damping values are snapshotted
from the body. (The upright-constraint creation is a side effect on the
external physics engine and mutates none of these fields.) -/
def InitComponent (comp : BuoyancyComponent) (env : WorldEnv) (body : BodyState)
    (sceneHasOceanManager : Bool) : BuoyancyComponent :=
  { comp with
    OceanManagerBound := comp.OceanManagerBound || sceneHasOceanManager
    TestPointRadius := |comp.TestPointRadius|
    SignedRadius := FMathSign env.GravityZ * |comp.TestPointRadius|
    baseLinearDamping := body.LinearDamping
    baseAngularDamping := body.AngularDamping }

/-- Sum of a list of vectors, for aggregating applied forces. -/
def vsum : List Vec3 → Vec3
  | [] => Vec3.zero
  | v :: rest => v.add (vsum rest)

/-- The total force accumulated on the body during a tick. -/
def TotalForce (r : TickResult) : Vec3 :=
  vsum (r.AppliedForces.map (fun e => e.1))

/-- The total torque about a reference point `c` accumulated during a
tick (`AddForceAtLocation` produces torque `(w - c) × F` about `c`). -/
def TotalTorqueAbout (c : Vec3) (r : TickResult) : Vec3 :=
  vsum (r.AppliedForces.map (fun e => (e.2.sub c).cross e.1))

/-- Unfolding of the main (force-integrating) branch of the tick: the
provider is bound, the body simulates physics, and `TestPoints` is
non-empty. -/
theorem TickComponent_run (comp : BuoyancyComponent) (env : WorldEnv)
    (body : BodyState) (hb : comp.OceanManagerBound = true)
    (hs : body.IsSimulating = true) (hne : comp.TestPoints ≠ []) :
    TickComponent comp env body =
      { comp := comp
        body := { body with
          LinearVelocity :=
            ClampedVelocity comp env (TickPointsUnderWater comp env) body
          LinearDamping := comp.baseLinearDamping +
            comp.FluidLinearDamping / (comp.TestPoints.length : ℚ) *
              (TickPointsUnderWater comp env : ℚ)
          AngularDamping := comp.baseAngularDamping +
            comp.FluidAngularDamping / (comp.TestPoints.length : ℚ) *
              (TickPointsUnderWater comp env : ℚ) }
        AppliedForces := TickForces comp env body
        PointsUnderWater := TickPointsUnderWater comp env } := by
  have hlen : ¬((comp.TestPoints.length : ℚ) < 1) := by
    have h1 : (1 : ℚ) ≤ (comp.TestPoints.length : ℚ) := by
      exact_mod_cast Nat.one_le_iff_ne_zero.mpr
        (by simpa [List.length_eq_zero] using hne)
    linarith
  simp [TickComponent, hb, hs, hlen]

/-- A sample configuration: one test point at the local origin, radius 1,
normal gravity (so the cached signed radius is `-1`), no density
override. -/
def compA : BuoyancyComponent :=
  { OceanManagerBound := true
    MeshDensity := 1
    FluidDensity := 1
    FluidLinearDamping := 1
    FluidAngularDamping := 1
    VelocityDamper := ⟨0, 0, 0⟩
    ClampMaxVelocity := true
    MaxUnderwaterVelocity := 1
    TestPointRadius := 1
    TestPoints := [⟨0, 0, 0⟩]
    PointDensityOverride := []
    DrawDebugPoints := false
    EnableStayUprightConstraint := false
    StayUprightStiffness := 50
    StayUprightDamping := 5
    SignedRadius := -1
    baseLinearDamping := 0
    baseAngularDamping := 0 }

/-- A sample environment: flat water surface at height 0, identity body
transform, still water, gravity pointing down. The norm oracles are set up
for the velocity `(3, 4, 0)` of `bodyA` (its norm is `5`). -/
def envA : WorldEnv :=
  { WaveHeight := fun _ => ⟨0, 0, 0⟩
    Transform := fun v => v
    WorldVelocityAtPoint := fun _ => ⟨0, 0, 0⟩
    BodyInstanceValid := true
    Size := fun _ => 5
    SafeNormal := fun _ => ⟨3 / 5, 4 / 5, 0⟩
    GravityZ := -1 }

/-- A sample simulating body of mass 1 moving at `(3, 4, 0)`. -/
def bodyA : BodyState :=
  { Position := ⟨0, 0, 0⟩
    LinearVelocity := ⟨3, 4, 0⟩
    LinearDamping := 0
    AngularDamping := 0
    Mass := 1
    IsSimulating := true }

/-- C7: when the provider is bound and the body is not simulating physics,
the tick sets the body's world position to
`(current x, current y, wave height sampled at the body's location)` and
applies no force, leaving velocity and both damping values untouched. -/
theorem kinematic_snap_to_wave_height (comp : BuoyancyComponent) (env : WorldEnv)
    (body : BodyState) (hb : comp.OceanManagerBound = true)
    (hs : body.IsSimulating = false) :
    (TickComponent comp env body).body.Position =
      ⟨body.Position.x, body.Position.y, (env.WaveHeight body.Position).z⟩ ∧
    (TickComponent comp env body).AppliedForces = [] ∧
    (TickComponent comp env body).body.LinearVelocity = body.LinearVelocity ∧
    (TickComponent comp env body).body.LinearDamping = body.LinearDamping ∧
    (TickComponent comp env body).body.AngularDamping = body.AngularDamping := by
  simp [TickComponent, hb, hs]

/-- Witness for C7: a non-simulating body at `(1, 2, 3)` under a wave
field of height 5 is snapped to `(1, 2, 5)` with nothing else changed. -/
theorem kinematic_snap_to_wave_height_witness :
    (TickComponent compA { envA with WaveHeight := fun _ => ⟨0, 0, 5⟩ }
        { bodyA with IsSimulating := false, Position := ⟨1, 2, 3⟩ }).body.Position =
      ⟨1, 2, 5⟩ ∧
    (TickComponent compA { envA with WaveHeight := fun _ => ⟨0, 0, 5⟩ }
        { bodyA with IsSimulating := false, Position := ⟨1, 2, 3⟩ }).AppliedForces = [] ∧
    (TickComponent compA { envA with WaveHeight := fun _ => ⟨0, 0, 5⟩ }
        { bodyA with IsSimulating := false, Position := ⟨1, 2, 3⟩ }).body.LinearVelocity =
      ⟨3, 4, 0⟩ ∧
    (TickComponent compA { envA with WaveHeight := fun _ => ⟨0, 0, 5⟩ }
        { bodyA with IsSimulating := false, Position := ⟨1, 2, 3⟩ }).body.LinearDamping = 0 ∧
    (TickComponent compA { envA with WaveHeight := fun _ => ⟨0, 0, 5⟩ }
        { bodyA with IsSimulating := false, Position := ⟨1, 2, 3⟩ }).body.AngularDamping = 0 :=
  kinematic_snap_to_wave_height compA
    { envA with WaveHeight := fun _ => ⟨0, 0, 5⟩ }
    { bodyA with IsSimulating := false, Position := ⟨1, 2, 3⟩ } rfl rfl

/-- C8: the tick degrades silently by early return — with no bound
provider it does nothing at all, and with a bound provider, a simulating
body and an empty `TestPoints` list it applies no force and leaves the
body (damping and velocity included) unchanged. -/
theorem tick_early_return_noop (comp : BuoyancyComponent) (env : WorldEnv)
    (body : BodyState) :
    (comp.OceanManagerBound = false →
      (TickComponent comp env body).body = body ∧
      (TickComponent comp env body).AppliedForces = [] ∧
      (TickComponent comp env body).PointsUnderWater = 0) ∧
    (comp.OceanManagerBound = true → body.IsSimulating = true →
      comp.TestPoints = [] →
      (TickComponent comp env body).body = body ∧
      (TickComponent comp env body).AppliedForces = [] ∧
      (TickComponent comp env body).PointsUnderWater = 0) := by
  constructor
  · intro hb
    simp [TickComponent, hb]
  · intro hb hs hempty
    simp [TickComponent, hb, hs, hempty]

/-- Witness for C8: an unbound component, and a bound component with no
test points, both leave the sample body untouched. -/
theorem tick_early_return_noop_witness :
    ((TickComponent { compA with OceanManagerBound := false } envA bodyA).body = bodyA ∧
      (TickComponent { compA with OceanManagerBound := false } envA bodyA).AppliedForces = [] ∧
      (TickComponent { compA with OceanManagerBound := false } envA bodyA).PointsUnderWater = 0) ∧
    ((TickComponent { compA with TestPoints := [] } envA bodyA).body = bodyA ∧
      (TickComponent { compA with TestPoints := [] } envA bodyA).AppliedForces = [] ∧
      (TickComponent { compA with TestPoints := [] } envA bodyA).PointsUnderWater = 0) :=
  ⟨(tick_early_return_noop { compA with OceanManagerBound := false } envA bodyA).1 rfl,
   (tick_early_return_noop { compA with TestPoints := [] } envA bodyA).2 rfl rfl rfl⟩

/-- C10: `TickComponent` mutates no configuration field and no cached
runtime value, while `InitializeComponent` (modelled by `InitComponent`)
normalizes `TestPointRadius` to its absolute value, writes the cached
`_SignedRadius` from the gravity sign, snapshots both base damping values
from the body, and leaves every other configuration field unchanged. -/
theorem tick_frame_and_init_cache (comp : BuoyancyComponent) (env : WorldEnv)
    (body : BodyState) (found : Bool) :
    (TickComponent comp env body).comp = comp ∧
    (InitComponent comp env body found).TestPointRadius = |comp.TestPointRadius| ∧
    (InitComponent comp env body found).SignedRadius =
      FMathSign env.GravityZ * |comp.TestPointRadius| ∧
    (InitComponent comp env body found).baseLinearDamping = body.LinearDamping ∧
    (InitComponent comp env body found).baseAngularDamping = body.AngularDamping ∧
    (InitComponent comp env body found).MeshDensity = comp.MeshDensity ∧
    (InitComponent comp env body found).FluidDensity = comp.FluidDensity ∧
    (InitComponent comp env body found).FluidLinearDamping = comp.FluidLinearDamping ∧
    (InitComponent comp env body found).FluidAngularDamping = comp.FluidAngularDamping ∧
    (InitComponent comp env body found).VelocityDamper = comp.VelocityDamper ∧
    (InitComponent comp env body found).ClampMaxVelocity = comp.ClampMaxVelocity ∧
    (InitComponent comp env body found).MaxUnderwaterVelocity = comp.MaxUnderwaterVelocity ∧
    (InitComponent comp env body found).TestPoints = comp.TestPoints ∧
    (InitComponent comp env body found).PointDensityOverride = comp.PointDensityOverride ∧
    (InitComponent comp env body found).DrawDebugPoints = comp.DrawDebugPoints ∧
    (InitComponent comp env body found).EnableStayUprightConstraint =
      comp.EnableStayUprightConstraint ∧
    (InitComponent comp env body found).StayUprightStiffness = comp.StayUprightStiffness ∧
    (InitComponent comp env body found).StayUprightDamping = comp.StayUprightDamping := by
  refine ⟨?_, rfl, rfl, rfl, rfl, rfl, rfl, rfl, rfl, rfl, rfl, rfl, rfl, rfl, rfl,
    rfl, rfl, rfl⟩
  by_cases h1 : comp.OceanManagerBound = false
  · simp [TickComponent, h1]
  · by_cases h2 : body.IsSimulating = false
    · simp [TickComponent, h1, h2]
    · by_cases h3 : (comp.TestPoints.length : ℚ) < 1 <;>
        simp [TickComponent, h1, h2, h3]

/-- `clampQ x 0 1` always lands in `[0, 1]`. -/
theorem clampQ_mem_unit (x : ℚ) : 0 ≤ clampQ x 0 1 ∧ clampQ x 0 1 ≤ 1 := by
  unfold clampQ
  split_ifs <;> constructor <;> linarith

/-- `clampQ · 0 1` is monotone. -/
theorem clampQ_mono_unit {a b : ℚ} (h : a ≤ b) : clampQ a 0 1 ≤ clampQ b 0 1 := by
  unfold clampQ
  split_ifs <;> linarith

/-- `clampQ x 0 1` saturates at `1` for `x ≥ 1`. -/
theorem clampQ_sat_unit {x : ℚ} (h : 1 ≤ x) : clampQ x 0 1 = 1 := by
  unfold clampQ
  split_ifs <;> linarith

/-- C2: for a positive `TestPointRadius` the depth fraction is the
clamped ratio `clamp((h - (w.z + signedRadius)) / (2 * testPointRadius), 0, 1)`,
is bounded in `[0, 1]`, is monotone non-decreasing in the sampled wave
height, and equals exactly `1` once the wave height reaches
`w.z + signedRadius + 2 * testPointRadius`. -/
theorem depth_fraction_bounds_mono_saturation (comp : BuoyancyComponent)
    (env env2 : WorldEnv) (w : Vec3) (hr : 0 < comp.TestPointRadius) :
    (0 ≤ DepthMultiplier comp env w ∧ DepthMultiplier comp env w ≤ 1) ∧
    ((env.WaveHeight w).z ≤ (env2.WaveHeight w).z →
      DepthMultiplier comp env w ≤ DepthMultiplier comp env2 w) ∧
    (w.z + comp.SignedRadius + 2 * comp.TestPointRadius ≤ (env.WaveHeight w).z →
      DepthMultiplier comp env w = 1) ∧
    DepthMultiplier comp env w =
      clampQ (((env.WaveHeight w).z - (w.z + comp.SignedRadius)) /
        (2 * comp.TestPointRadius)) 0 1 := by
  have h2r : (0 : ℚ) < comp.TestPointRadius * 2 := by linarith
  refine ⟨clampQ_mem_unit _, ?_, ?_, ?_⟩
  · intro hmono
    exact clampQ_mono_unit ((div_le_div_iff_of_pos_right h2r).mpr (by linarith))
  · intro hsat
    refine clampQ_sat_unit ((one_le_div h2r).mpr (by linarith))
  · rw [DepthMultiplier, mul_comm]

/-- Witness for C2 at a concrete point: radius `1`, signed radius `-1`,
world point at the origin, wave heights `0` and `3`. -/
theorem depth_fraction_bounds_mono_saturation_witness :
    (0 ≤ DepthMultiplier compA envA ⟨0, 0, 0⟩ ∧
      DepthMultiplier compA envA ⟨0, 0, 0⟩ ≤ 1) ∧
    ((envA.WaveHeight ⟨0, 0, 0⟩).z ≤
        (({ envA with WaveHeight := fun _ => ⟨0, 0, 3⟩ } : WorldEnv).WaveHeight
          ⟨0, 0, 0⟩).z →
      DepthMultiplier compA envA ⟨0, 0, 0⟩ ≤
        DepthMultiplier compA { envA with WaveHeight := fun _ => ⟨0, 0, 3⟩ } ⟨0, 0, 0⟩) ∧
    ((⟨0, 0, 0⟩ : Vec3).z + compA.SignedRadius + 2 * compA.TestPointRadius ≤
        (({ envA with WaveHeight := fun _ => ⟨0, 0, 3⟩ } : WorldEnv).WaveHeight
          ⟨0, 0, 0⟩).z →
      DepthMultiplier compA { envA with WaveHeight := fun _ => ⟨0, 0, 3⟩ } ⟨0, 0, 0⟩ = 1) ∧
    DepthMultiplier compA { envA with WaveHeight := fun _ => ⟨0, 0, 3⟩ } ⟨0, 0, 0⟩ =
      clampQ ((((⟨0, 0, 3⟩ : Vec3)).z - ((⟨0, 0, 0⟩ : Vec3).z + compA.SignedRadius)) /
        (2 * compA.TestPointRadius)) 0 1 := by
  have h1 := depth_fraction_bounds_mono_saturation compA envA
    { envA with WaveHeight := fun _ => ⟨0, 0, 3⟩ } ⟨0, 0, 0⟩ (by decide)
  have h2 := depth_fraction_bounds_mono_saturation compA
    { envA with WaveHeight := fun _ => ⟨0, 0, 3⟩ }
    { envA with WaveHeight := fun _ => ⟨0, 0, 3⟩ } ⟨0, 0, 0⟩ (by decide)
  exact ⟨h1.1, h1.2.1, h2.2.2.1, h2.2.2.2⟩

/-- C5: after the point loop of a tick with a bound provider, a simulating
body and a non-empty `TestPoints` list, linear damping equals
`baseLinearDamping + fluidLinearDamping * (submergedCount / totalPoints)`
(likewise angular); ticking again from the resulting state yields the same
damping (no compounding); full submersion gives exactly
`base + fluid`, zero submersion gives exactly the base value. -/
theorem damping_update_formula (comp : BuoyancyComponent) (env : WorldEnv)
    (body : BodyState) (hb : comp.OceanManagerBound = true)
    (hs : body.IsSimulating = true) (hne : comp.TestPoints ≠ []) :
    (TickComponent comp env body).body.LinearDamping =
      comp.baseLinearDamping + comp.FluidLinearDamping *
        ((TickPointsUnderWater comp env : ℚ) / (comp.TestPoints.length : ℚ)) ∧
    (TickComponent comp env body).body.AngularDamping =
      comp.baseAngularDamping + comp.FluidAngularDamping *
        ((TickPointsUnderWater comp env : ℚ) / (comp.TestPoints.length : ℚ)) ∧
    (TickComponent comp env (TickComponent comp env body).body).body.LinearDamping =
      (TickComponent comp env body).body.LinearDamping ∧
    (TickComponent comp env (TickComponent comp env body).body).body.AngularDamping =
      (TickComponent comp env body).body.AngularDamping ∧
    (TickPointsUnderWater comp env = comp.TestPoints.length →
      (TickComponent comp env body).body.LinearDamping =
        comp.baseLinearDamping + comp.FluidLinearDamping ∧
      (TickComponent comp env body).body.AngularDamping =
        comp.baseAngularDamping + comp.FluidAngularDamping) ∧
    (TickPointsUnderWater comp env = 0 →
      (TickComponent comp env body).body.LinearDamping = comp.baseLinearDamping ∧
      (TickComponent comp env body).body.AngularDamping = comp.baseAngularDamping) := by
  have hn : (comp.TestPoints.length : ℚ) ≠ 0 := by
    exact_mod_cast (by simpa [List.length_eq_zero] using hne : comp.TestPoints.length ≠ 0)
  have hrun := TickComponent_run comp env body hb hs hne
  have hs2 : (TickComponent comp env body).body.IsSimulating = true := by
    rw [hrun]; exact hs
  have hrun2 := TickComponent_run comp env (TickComponent comp env body).body hb hs2 hne
  refine ⟨?_, ?_, ?_, ?_, ?_, ?_⟩
  · rw [hrun]; ring
  · rw [hrun]; ring
  · rw [hrun2, hrun]
  · rw [hrun2, hrun]
  · intro hfull
    rw [hrun]
    constructor <;> simp [hfull, div_mul_cancel₀ _ hn]
  · intro hzero
    rw [hrun]
    constructor <;> simp [hzero]

/-- Witness for C5: the sample configuration has one test point, fully
submerged, so the damping becomes `0 + 1 * (1 / 1) = 1` on the first and
the second tick alike, and the full-submersion case applies. -/
theorem damping_update_formula_witness :
    (TickComponent compA envA bodyA).body.LinearDamping =
      compA.baseLinearDamping + compA.FluidLinearDamping *
        ((TickPointsUnderWater compA envA : ℚ) / (compA.TestPoints.length : ℚ)) ∧
    (TickComponent compA envA bodyA).body.AngularDamping =
      compA.baseAngularDamping + compA.FluidAngularDamping *
        ((TickPointsUnderWater compA envA : ℚ) / (compA.TestPoints.length : ℚ)) ∧
    (TickComponent compA envA (TickComponent compA envA bodyA).body).body.LinearDamping =
      (TickComponent compA envA bodyA).body.LinearDamping ∧
    (TickComponent compA envA (TickComponent compA envA bodyA).body).body.AngularDamping =
      (TickComponent compA envA bodyA).body.AngularDamping ∧
    (TickPointsUnderWater compA envA = compA.TestPoints.length →
      (TickComponent compA envA bodyA).body.LinearDamping =
        compA.baseLinearDamping + compA.FluidLinearDamping ∧
      (TickComponent compA envA bodyA).body.AngularDamping =
        compA.baseAngularDamping + compA.FluidAngularDamping) ∧
    (TickPointsUnderWater compA envA = 0 →
      (TickComponent compA envA bodyA).body.LinearDamping = compA.baseLinearDamping ∧
      (TickComponent compA envA bodyA).body.AngularDamping = compA.baseAngularDamping) :=
  damping_update_formula compA envA bodyA rfl rfl (by decide)

/-- Dropping an index at which the counted predicate is false does not
change a `countP` over the list. -/
theorem countP_filter_erase (l : List ℕ) (p : ℕ → Bool) (i : ℕ)
    (hp : p i = false) :
    (l.filter (fun j => !(j == i))).countP p = l.countP p := by
  induction l with
  | nil => rfl
  | cons a t ih =>
    by_cases h : a = i
    · subst h
      simp [List.filter_cons, List.countP_cons, hp, ih]
    · simp [List.filter_cons, List.countP_cons, h, ih]

/-- Dropping an index at which the partial map returns `none` does not
change a `filterMap` over the list. -/
theorem filterMap_filter_erase {α : Type} (l : List ℕ) (f : ℕ → Option α)
    (i : ℕ) (hf : f i = none) :
    (l.filter (fun j => !(j == i))).filterMap f = l.filterMap f := by
  induction l with
  | nil => rfl
  | cons a t ih =>
    by_cases h : a = i
    · subst h
      simp [List.filter_cons, List.filterMap_cons, hf, ih]
    · rcases hfa : f a with _ | b <;>
        simp [List.filter_cons, h, List.filterMap_cons, hfa, ih]

/-- C4: a test point whose sampled wave height equals exactly
`w.z + signedRadius` is not classified as underwater (the test is a strict
`>`), contributes no `AddForceAtLocation` call, and is not counted: the
tick's counter and force list are those obtained with index `i` removed
from the loop. -/
theorem boundary_point_not_underwater (comp : BuoyancyComponent) (env : WorldEnv)
    (body : BodyState) (i : ℕ) (hb : comp.OceanManagerBound = true)
    (hs : body.IsSimulating = true) (hi : i < comp.TestPoints.length)
    (heq : (env.WaveHeight (WorldPoint comp env i)).z =
      (WorldPoint comp env i).z + comp.SignedRadius) :
    PointUnderwater comp env (WorldPoint comp env i) = false ∧
    PointEntry comp env body i = none ∧
    (TickComponent comp env body).PointsUnderWater =
      ((List.range comp.TestPoints.length).filter (fun j => !(j == i))).countP
        (fun j => PointUnderwater comp env (WorldPoint comp env j)) ∧
    (TickComponent comp env body).AppliedForces =
      ((List.range comp.TestPoints.length).filter (fun j => !(j == i))).filterMap
        (PointEntry comp env body) := by
  have hne : comp.TestPoints ≠ [] := by
    intro h
    rw [h] at hi
    simp at hi
  have hu : PointUnderwater comp env (WorldPoint comp env i) = false := by
    simp [PointUnderwater, heq]
  have hentry : PointEntry comp env body i = none := by
    simp [PointEntry, hu]
  have hrun := TickComponent_run comp env body hb hs hne
  refine ⟨hu, hentry, ?_, ?_⟩
  · rw [hrun]
    exact (countP_filter_erase _ _ i hu).symm
  · rw [hrun]
    exact (filterMap_filter_erase _ _ i hentry).symm

/-- A component with its single test point sitting exactly at the
submersion boundary of the sample environment (`w.z + signedRadius = 0`,
wave height `0`). -/
def compD4 : BuoyancyComponent := { compA with TestPoints := [⟨0, 0, 1⟩] }

/-- Witness for C4: the boundary point of `compD4` is dry, yields no
force, and the counter and force list equal those of the loop with the
point removed. -/
theorem boundary_point_not_underwater_witness :
    PointUnderwater compD4 envA (WorldPoint compD4 envA 0) = false ∧
    PointEntry compD4 envA bodyA 0 = none ∧
    (TickComponent compD4 envA bodyA).PointsUnderWater =
      ((List.range compD4.TestPoints.length).filter (fun j => !(j == 0))).countP
        (fun j => PointUnderwater compD4 envA (WorldPoint compD4 envA j)) ∧
    (TickComponent compD4 envA bodyA).AppliedForces =
      ((List.range compD4.TestPoints.length).filter (fun j => !(j == 0))).filterMap
        (PointEntry compD4 envA bodyA) :=
  boundary_point_not_underwater compD4 envA bodyA 0 rfl rfl (by decide)
    (by norm_num [WorldPoint, envA, compD4, compA])

/-- `List.getD` with the `MeshDensity` default agrees with the claim's
`override when the index is valid, else mesh density` description. -/
theorem PointDensity_eq_if (comp : BuoyancyComponent) (i : ℕ) :
    PointDensity comp i =
      if i < comp.PointDensityOverride.length then
        comp.PointDensityOverride.getD i 0
      else comp.MeshDensity := by
  unfold PointDensity
  by_cases h : i < comp.PointDensityOverride.length
  · simp [h, List.getD_eq_getElem?_getD, List.getElem?_eq_getElem h]
  · simp [h, List.getD_eq_getElem?_getD, List.getElem?_eq_none (le_of_not_lt h)]

/-- C1: during a tick with a bound provider and a simulating body, every
underwater test point `i` receives exactly the force
`(dampingForce.x, dampingForce.y, dampingForce.z + buoyantForceZ)` at its
world position, where
`buoyantForceZ = mass / density_i * fluidDensity * (-gravityZ) / totalPoints * depthFraction`,
`dampingForce = (-velocityAtPoint(w) ⊙ velocityDamper) * mass * depthFraction`,
and `density_i` is the override at `i` when that index is valid, else the
mesh density. -/
theorem tick_force_at_underwater_point (comp : BuoyancyComponent) (env : WorldEnv)
    (body : BodyState) (i : ℕ) (hb : comp.OceanManagerBound = true)
    (hs : body.IsSimulating = true) (hi : i < comp.TestPoints.length)
    (hu : (env.WaveHeight (WorldPoint comp env i)).z >
      (WorldPoint comp env i).z + comp.SignedRadius) :
    ((⟨((((GetVelocityAtPoint env (WorldPoint comp env i)).neg.cmul
            comp.VelocityDamper).smul body.Mass).smul
            (DepthMultiplier comp env (WorldPoint comp env i))).x,
        ((((GetVelocityAtPoint env (WorldPoint comp env i)).neg.cmul
            comp.VelocityDamper).smul body.Mass).smul
            (DepthMultiplier comp env (WorldPoint comp env i))).y,
        ((((GetVelocityAtPoint env (WorldPoint comp env i)).neg.cmul
            comp.VelocityDamper).smul body.Mass).smul
            (DepthMultiplier comp env (WorldPoint comp env i))).z +
          body.Mass /
            (if i < comp.PointDensityOverride.length then
              comp.PointDensityOverride.getD i 0
            else comp.MeshDensity) *
            comp.FluidDensity * (-env.GravityZ) / (comp.TestPoints.length : ℚ) *
            DepthMultiplier comp env (WorldPoint comp env i)⟩ : Vec3),
      WorldPoint comp env i) ∈ (TickComponent comp env body).AppliedForces := by
  have hne : comp.TestPoints ≠ [] := by
    intro h
    rw [h] at hi
    simp at hi
  have hrun := TickComponent_run comp env body hb hs hne
  rw [hrun]
  show _ ∈ TickForces comp env body
  unfold TickForces
  apply List.mem_filterMap.mpr
  refine ⟨i, List.mem_range.mpr hi, ?_⟩
  have hub : PointUnderwater comp env (WorldPoint comp env i) = true := by
    simp only [PointUnderwater, decide_eq_true_eq]
    exact hu
  simp [PointEntry, hub, PointForce, DampingForce, BuoyancyForceZ,
    PointDensity_eq_if]

/-- Witness for C1 on the sample configuration: the single origin test
point is half submerged and receives the force `(0, 0, 1/2)` at the
origin. -/
theorem tick_force_at_underwater_point_witness :
    ((⟨((((GetVelocityAtPoint envA (WorldPoint compA envA 0)).neg.cmul
            compA.VelocityDamper).smul bodyA.Mass).smul
            (DepthMultiplier compA envA (WorldPoint compA envA 0))).x,
        ((((GetVelocityAtPoint envA (WorldPoint compA envA 0)).neg.cmul
            compA.VelocityDamper).smul bodyA.Mass).smul
            (DepthMultiplier compA envA (WorldPoint compA envA 0))).y,
        ((((GetVelocityAtPoint envA (WorldPoint compA envA 0)).neg.cmul
            compA.VelocityDamper).smul bodyA.Mass).smul
            (DepthMultiplier compA envA (WorldPoint compA envA 0))).z +
          bodyA.Mass /
            (if 0 < compA.PointDensityOverride.length then
              compA.PointDensityOverride.getD 0 0
            else compA.MeshDensity) *
            compA.FluidDensity * (-envA.GravityZ) / (compA.TestPoints.length : ℚ) *
            DepthMultiplier compA envA (WorldPoint compA envA 0)⟩ : Vec3),
      WorldPoint compA envA 0) ∈ (TickComponent compA envA bodyA).AppliedForces :=
  tick_force_at_underwater_point compA envA bodyA 0 rfl rfl (by decide)
    (by norm_num [WorldPoint, envA, compA])

/-- C6: when velocity clamping is enabled, at least one point is
submerged, and the body's speed (as reported by the engine's norm) exceeds
`MaxUnderwaterVelocity`, the post-tick velocity is the safe-normalized
direction rescaled to exactly that magnitude: assuming the engine's
`GetSafeNormal` returns the positive rescaling `v * c` of the velocity
with unit norm, the new velocity is `v * (c * max)`, a positive multiple
of `v` (direction unchanged) whose squared norm is exactly `max²`. When
`ClampMaxVelocity` is false the tick never modifies the velocity. -/
theorem velocity_clamp_behavior (comp : BuoyancyComponent) (env : WorldEnv)
    (body : BodyState) (c : ℚ) :
    (comp.ClampMaxVelocity = true → comp.OceanManagerBound = true →
      body.IsSimulating = true → comp.TestPoints ≠ [] →
      0 < TickPointsUnderWater comp env →
      comp.MaxUnderwaterVelocity < env.Size body.LinearVelocity →
      0 < comp.MaxUnderwaterVelocity → 0 < c →
      env.SafeNormal body.LinearVelocity = body.LinearVelocity.smul c →
      Vec3.dot (env.SafeNormal body.LinearVelocity)
        (env.SafeNormal body.LinearVelocity) = 1 →
      ((TickComponent comp env body).body.LinearVelocity =
          body.LinearVelocity.smul (c * comp.MaxUnderwaterVelocity) ∧
        0 < c * comp.MaxUnderwaterVelocity ∧
        Vec3.dot (TickComponent comp env body).body.LinearVelocity
          (TickComponent comp env body).body.LinearVelocity =
          comp.MaxUnderwaterVelocity ^ 2)) ∧
    (comp.ClampMaxVelocity = false →
      (TickComponent comp env body).body.LinearVelocity = body.LinearVelocity) := by
  constructor
  · intro hc hb hs hne hcnt hsp hM hcpos hsn hdot
    have hrun := TickComponent_run comp env body hb hs hne
    have hcond : comp.ClampMaxVelocity = true ∧ 0 < TickPointsUnderWater comp env ∧
        comp.MaxUnderwaterVelocity < env.Size body.LinearVelocity := ⟨hc, hcnt, hsp⟩
    have hclamp : ClampedVelocity comp env (TickPointsUnderWater comp env) body =
        (env.SafeNormal body.LinearVelocity).smul comp.MaxUnderwaterVelocity := by
      simp [ClampedVelocity, hcond]
    rw [hsn] at hdot
    rw [hrun]
    simp only [hclamp, hsn]
    refine ⟨?_, mul_pos hcpos hM, ?_⟩
    · simp only [Vec3.smul, Vec3.ext_iff]
      refine ⟨by ring, by ring, by ring⟩
    · simp only [Vec3.dot, Vec3.smul] at hdot ⊢
      linear_combination comp.MaxUnderwaterVelocity ^ 2 * hdot
  · intro hc
    by_cases h1 : comp.OceanManagerBound = false
    · simp [TickComponent, h1]
    · by_cases h2 : body.IsSimulating = false
      · simp [TickComponent, h1, h2]
      · by_cases h3 : (comp.TestPoints.length : ℚ) < 1 <;>
          simp [TickComponent, h1, h2, h3, ClampedVelocity, hc]

/-- Witness for C6: `bodyA` moves at `(3, 4, 0)` with engine norm `5`
above the limit `1`; the safe normal is `(3/5, 4/5, 0) = v * (1/5)`, and
the clamped velocity is `v * (1/5 * 1)` of squared norm `1`. Disabling
`ClampMaxVelocity` leaves the velocity untouched. -/
theorem velocity_clamp_behavior_witness :
    ((TickComponent compA envA bodyA).body.LinearVelocity =
        bodyA.LinearVelocity.smul (1 / 5 * compA.MaxUnderwaterVelocity) ∧
      0 < 1 / 5 * compA.MaxUnderwaterVelocity ∧
      Vec3.dot (TickComponent compA envA bodyA).body.LinearVelocity
        (TickComponent compA envA bodyA).body.LinearVelocity =
        compA.MaxUnderwaterVelocity ^ 2) ∧
    (TickComponent { compA with ClampMaxVelocity := false } envA bodyA).body.LinearVelocity =
      bodyA.LinearVelocity :=
  ⟨(velocity_clamp_behavior compA envA bodyA (1 / 5)).1 rfl rfl rfl (by decide)
      (by norm_num [TickPointsUnderWater, compA, envA, PointUnderwater, WorldPoint])
      (by norm_num [compA, envA]) (by norm_num [compA]) (by norm_num)
      (by norm_num [envA, bodyA, Vec3.smul, Vec3.ext_iff])
      (by norm_num [envA, Vec3.dot]),
   (velocity_clamp_behavior { compA with ClampMaxVelocity := false } envA bodyA 1).2 rfl⟩

/-- The per-index data the point loop consumes: each test point paired
with the density that applies at its index (the override when the index
is valid, else the mesh density). -/
def EffPoints (comp : BuoyancyComponent) : List (Vec3 × ℚ) :=
  (List.range comp.TestPoints.length).map fun i =>
    (comp.TestPoints.getD i Vec3.zero,
      comp.PointDensityOverride.getD i comp.MeshDensity)

/-- The loop iteration as a function of the (test point, density) pair. -/
def PairEntry (comp : BuoyancyComponent) (env : WorldEnv) (body : BodyState)
    (pr : Vec3 × ℚ) : Option (Vec3 × Vec3) :=
  if PointUnderwater comp env (env.Transform pr.1) then
    some (PointForce comp env body pr.2 (env.Transform pr.1), env.Transform pr.1)
  else none

/-- The tick's force list is the `filterMap` of `PairEntry` over the
effective pairs. -/
theorem TickForces_eq_pair (comp : BuoyancyComponent) (env : WorldEnv)
    (body : BodyState) :
    TickForces comp env body = (EffPoints comp).filterMap (PairEntry comp env body) := by
  unfold TickForces EffPoints
  rw [List.filterMap_map]
  rfl

/-- The tick's submerged-point count is the `countP` of the submersion
test over the effective pairs. -/
theorem TickCount_eq_pair (comp : BuoyancyComponent) (env : WorldEnv) :
    TickPointsUnderWater comp env =
      (EffPoints comp).countP
        (fun pr => PointUnderwater comp env (env.Transform pr.1)) := by
  unfold TickPointsUnderWater EffPoints
  rw [List.countP_map]
  rfl

/-- There is one effective pair per test point. -/
theorem EffPoints_length (comp : BuoyancyComponent) :
    (EffPoints comp).length = comp.TestPoints.length := by
  simp [EffPoints]

/-- `vsum` is invariant under permutation of the summands. -/
theorem vsum_perm {l1 l2 : List Vec3} (h : l1.Perm l2) : vsum l1 = vsum l2 := by
  induction h with
  | nil => rfl
  | cons x _ ih => simp [vsum, ih]
  | swap x y l =>
    show (y.add (x.add (vsum l))) = (x.add (y.add (vsum l)))
    simp only [Vec3.add, Vec3.ext_iff]
    refine ⟨by ring, by ring, by ring⟩
  | trans _ _ ih1 ih2 => rw [ih1, ih2]

/-- C9 (amended): the tick's aggregate effect is invariant under
permuting test points together with their index-aligned effective
densities: if replacing `TestPoints`/`PointDensityOverride` permutes the
effective (point, density) pair sequence, the submerged-point count, the
total applied force, the total torque about any reference point, and the
resulting body state (velocity and damping included) are all unchanged. -/
theorem tick_aggregate_perm_invariant (comp1 : BuoyancyComponent) (env : WorldEnv)
    (body : BodyState) (pts2 : List Vec3) (ov2 : List ℚ) (cref : Vec3)
    (hperm : (EffPoints { comp1 with TestPoints := pts2, PointDensityOverride := ov2 }).Perm
      (EffPoints comp1)) :
    (TickComponent { comp1 with TestPoints := pts2, PointDensityOverride := ov2 }
        env body).PointsUnderWater = (TickComponent comp1 env body).PointsUnderWater ∧
    TotalForce (TickComponent { comp1 with TestPoints := pts2, PointDensityOverride := ov2 }
        env body) = TotalForce (TickComponent comp1 env body) ∧
    TotalTorqueAbout cref
        (TickComponent { comp1 with TestPoints := pts2, PointDensityOverride := ov2 }
          env body) = TotalTorqueAbout cref (TickComponent comp1 env body) ∧
    (TickComponent { comp1 with TestPoints := pts2, PointDensityOverride := ov2 }
        env body).body = (TickComponent comp1 env body).body := by
  set comp2 : BuoyancyComponent :=
    { comp1 with TestPoints := pts2, PointDensityOverride := ov2 } with hc2
  have hlen : pts2.length = comp1.TestPoints.length := by
    have h := hperm.length_eq
    simpa [EffPoints] using h
  by_cases h1 : comp1.OceanManagerBound = false
  · have h1' : comp2.OceanManagerBound = false := h1
    simp [TickComponent, h1', h1, TotalForce, TotalTorqueAbout, vsum]
  · have hb1 : comp1.OceanManagerBound = true := by
      revert h1; cases comp1.OceanManagerBound <;> simp
    have hb2 : comp2.OceanManagerBound = true := hb1
    by_cases h2 : body.IsSimulating = false
    · simp [TickComponent, hb1, hb2, h2, TotalForce, TotalTorqueAbout, vsum]
    · have hs : body.IsSimulating = true := by
        revert h2; cases body.IsSimulating <;> simp
      by_cases h3 : comp1.TestPoints.length = 0
      · have h3' : comp2.TestPoints.length = 0 := by
          show pts2.length = 0
          rw [hlen, h3]
        simp [TickComponent, hb1, hb2, hs, h3, h3', TotalForce, TotalTorqueAbout, vsum]
      · have hne1 : comp1.TestPoints ≠ [] := by
          simpa [List.length_eq_zero] using h3
        have hne2 : comp2.TestPoints ≠ [] := by
          show pts2 ≠ []
          intro h
          rw [h] at hlen
          exact h3 (by simpa using hlen.symm)
        have hcnt : TickPointsUnderWater comp2 env = TickPointsUnderWater comp1 env := by
          rw [TickCount_eq_pair, TickCount_eq_pair]
          exact hperm.countP_eq _
        have hpair : PairEntry comp2 env body = PairEntry comp1 env body := by
          funext pr
          simp [PairEntry, PointForce, DampingForce, BuoyancyForceZ, DepthMultiplier,
            PointUnderwater, GetVelocityAtPoint, hlen]
        have hfperm : (TickForces comp2 env body).Perm (TickForces comp1 env body) := by
          rw [TickForces_eq_pair comp2, hpair, TickForces_eq_pair comp1]
          exact hperm.filterMap _
        have hrun2 := TickComponent_run comp2 env body hb2 hs hne2
        have hrun1 := TickComponent_run comp1 env body hb1 hs hne1
        have hclamped : ClampedVelocity comp2 env (TickPointsUnderWater comp1 env) body =
            ClampedVelocity comp1 env (TickPointsUnderWater comp1 env) body := rfl
        rw [hrun1, hrun2]
        refine ⟨hcnt, ?_, ?_, ?_⟩
        · simp only [TotalForce]
          exact vsum_perm (hfperm.map _)
        · simp only [TotalTorqueAbout]
          exact vsum_perm (hfperm.map _)
        · simp [hcnt, hclamped, hlen]

/-- Two test points, half and fully submerged in the sample environment,
with a density override at index 0 only. -/
def compP : BuoyancyComponent :=
  { compA with TestPoints := [⟨0, 0, 0⟩, ⟨0, 0, -1⟩], PointDensityOverride := [2] }

/-- `compP` with the order of its two test points swapped and everything
else (the density override included) unchanged. -/
def compQ : BuoyancyComponent := { compP with TestPoints := [⟨0, 0, -1⟩, ⟨0, 0, 0⟩] }

/-- Counterexample to C9 as stated: permuting only the `TestPoints`
sequence (the index-aligned `PointDensityOverride` staying fixed)
reassigns the override densities to different points and changes the
total accumulated force: `(0, 0, 1/2)` versus `(0, 0, 5/8)`. -/
theorem testpoints_perm_counterexample :
    compQ.TestPoints.Perm compP.TestPoints ∧
    compQ = { compP with TestPoints := compQ.TestPoints } ∧
    TotalForce (TickComponent compQ envA bodyA) ≠
      TotalForce (TickComponent compP envA bodyA) := by
  refine ⟨by decide, rfl, ?_⟩
  norm_num [TotalForce, TickComponent, TickForces, TickPointsUnderWater, ClampedVelocity,
    PointEntry, PointUnderwater, WorldPoint, PointForce, DampingForce, BuoyancyForceZ,
    DepthMultiplier, PointDensity, GetVelocityAtPoint, clampQ, vsum, compP, compQ, compA,
    envA, bodyA, Vec3.ext_iff, Vec3.add, Vec3.zero, Vec3.smul, Vec3.cmul, Vec3.neg,
    List.range_succ, List.range_zero, List.filterMap_cons, List.filterMap_nil,
    List.filterMap_append, List.countP_cons, List.countP_nil, List.countP_append,
    List.getD_cons_zero, List.getD_cons_succ]

/-- Like `compP` but with a full-length density override, so that points
and densities can be permuted in tandem. -/
def compW9 : BuoyancyComponent :=
  { compA with TestPoints := [⟨0, 0, 0⟩, ⟨0, 0, -1⟩], PointDensityOverride := [2, 3] }

/-- `compW9` with the permutation applied to the points and the densities
in tandem. -/
def compW9s : BuoyancyComponent :=
  { compW9 with TestPoints := [⟨0, 0, -1⟩, ⟨0, 0, 0⟩], PointDensityOverride := [3, 2] }

/-- Witness for the amended C9: swapping both test points and their
aligned densities leaves count, total force, total torque about the
origin, and the resulting body state unchanged. -/
theorem tick_aggregate_perm_invariant_witness :
    (TickComponent compW9s envA bodyA).PointsUnderWater =
      (TickComponent compW9 envA bodyA).PointsUnderWater ∧
    TotalForce (TickComponent compW9s envA bodyA) =
      TotalForce (TickComponent compW9 envA bodyA) ∧
    TotalTorqueAbout ⟨0, 0, 0⟩ (TickComponent compW9s envA bodyA) =
      TotalTorqueAbout ⟨0, 0, 0⟩ (TickComponent compW9 envA bodyA) ∧
    (TickComponent compW9s envA bodyA).body =
      (TickComponent compW9 envA bodyA).body :=
  tick_aggregate_perm_invariant compW9 envA bodyA [⟨0, 0, -1⟩, ⟨0, 0, 0⟩] [3, 2]
    ⟨0, 0, 0⟩ (by decide)
